import Mathlib

/-!
Verification of the PostHog provider (hook + operator) of this Airflow fork.

The two source files embedded here are
`airflow/providers/posthog/hooks/posthog.py` (class `PostHogHook`) and
`airflow/providers/posthog/operators/posthog_track_event.py`
(class `PostHogTrackEventOperator`).

The embedding is a shallow one: the process-global state touched by the code
(the `posthog` module's configuration fields, the trace of vendor `capture`
calls, and the log) is threaded explicitly as a `World` value, and Python
exceptions become `Except PyError`.
-/

set_option autoImplicit false

namespace PosthogProvider

/-- A fragment of JSON values, enough for a connection's `extra_dejson`
payload (a JSON object mapping string keys to values).  `null` is the JSON
null, which Python's json parser turns into `None`. -/
inductive Jval where
  | null
  | str (s : String)
  | num (n : Int)
  | bool (b : Bool)
deriving DecidableEq

/-- Python `dict.get(k)` on a parsed JSON object: returns `None` both when the
key is absent and when the stored value is JSON `null` (parsed to `None`). -/
def pyGet (d : List (String × Jval)) (k : String) : Option Jval :=
  match d.lookup k with
  | none => none
  | some Jval.null => none
  | some v => some v

/-- A stored connection record, as consumed by the hook: only its
`extra_dejson` payload is read (`self.extras = self.connection.extra_dejson`). -/
structure Connection where
  extra_dejson : List (String × Jval)
deriving DecidableEq

/-- The connection store: resolves a connection id to a stored record, or
nothing when the id is not defined. -/
def ConnStore : Type := String → Option Connection

/-- Python exceptions surfaced by this code: `AirflowException` raised by the
provider itself, and `AttributeError` raised by Python attribute lookup. -/
inductive PyError where
  | airflow (msg : String)
  | attributeError (msg : String)
  | typeError (msg : String)
deriving DecidableEq

/-- The hook object after a successful `PostHogHook.__init__`: the constructor
arguments and the instance attributes it sets (`self.connection`,
`self.extras`, `self.project_api_key`).  `project_api_key` is the non-`None`
value extracted from the extras. -/
structure PostHogHook where
  posthog_conn_id : String
  posthog_debug_mode : Bool
  connection : Connection
  extras : List (String × Jval)
  project_api_key : Jval
deriving DecidableEq

/-- A value installed in the `posthog` module's `on_error` slot: either the
library default or the bound `on_error` method of a hook
(`posthog.on_error = self.on_error`). -/
inductive ErrorCallback where
  | defaultCallback
  | hookOnError (h : PostHogHook)
deriving DecidableEq

/-- The mutable configuration of the process-wide `posthog` module: `debug`,
`on_error` and `project_api_key` (each `none`/unset until written). -/
structure ClientState where
  debug : Bool
  on_error : Option ErrorCallback
  project_api_key : Option Jval
deriving DecidableEq

/-- One invocation of the vendor client's `capture(user_id, event, properties)`
operation. -/
structure CaptureCall where
  user_id : String
  event : String
  properties : List (String × Jval)
deriving DecidableEq

/-- Severity of a log line. -/
inductive LogLevel where
  | info
  | error
deriving DecidableEq

/-- An argument interpolated into a log format string: the code passes strings
and one property dict. -/
inductive LogArg where
  | str (s : String)
  | dict (d : List (String × Jval))
deriving DecidableEq

/-- A structured log line: level, `%s` format string and its arguments. -/
structure LogLine where
  level : LogLevel
  msg : String
  args : List LogArg
deriving DecidableEq

/-- The observable state threaded through the embedding: the shared `posthog`
module configuration, the trace of vendor `capture` calls, and the log. -/
structure World where
  client : ClientState
  captures : List CaptureCall
  log : List LogLine
deriving DecidableEq

/-- Append a log line to the world. -/
def World.logLine (w : World) (l : LogLine) : World :=
  { w with log := w.log ++ [l] }

/-- Modelled from the spec: `BaseHook.get_connection` (framework code of this
repository outside the provider sources).  Spec §6: "Connection store lookup
(consumed): resolve(connection_id) → record with `.extra_dejson`", and §4.1(a):
fetching "fail[s] with a configuration error if the identifier does not
resolve". -/
def get_connection (store : ConnStore) (conn_id : String) :
    Except PyError Connection :=
  match store conn_id with
  | none => Except.error (PyError.airflow
      ("The conn_id `" ++ conn_id ++ "` isn't defined"))
  | some c => Except.ok c

/-- `PostHogHook.__init__(posthog_conn_id='posthog_default',
posthog_debug_mode=False)`: stores the arguments, fetches the connection,
reads `extra_dejson`, extracts `project_api_key` with `.get`, and raises
`AirflowException('No PostHog write key provided')` when that is `None`.
The body never touches the `posthog` module, so the world is returned
unchanged on every path. -/
def PostHogHook.construct (store : ConnStore) (posthog_conn_id : String)
    (posthog_debug_mode : Bool) (w : World) :
    Except PyError PostHogHook × World :=
  match get_connection store posthog_conn_id with
  | Except.error e => (Except.error e, w)
  | Except.ok connection =>
    let extras := connection.extra_dejson
    match pyGet extras "project_api_key" with
    | none =>
      (Except.error (PyError.airflow "No PostHog write key provided"), w)
    | some k =>
      (Except.ok { posthog_conn_id, posthog_debug_mode, connection, extras,
                   project_api_key := k }, w)

/-- Python default for `PostHogHook.__init__`'s `posthog_conn_id`. -/
def default_conn_name : String := "posthog_default"

/-- `PostHogHook.get_conn`: logs, sets `posthog.debug`, logs again in debug
mode, installs `posthog.on_error = self.on_error`, sets
`posthog.project_api_key`, and returns the `posthog` module itself — so the
returned handle is exactly the shared client configuration. -/
def PostHogHook.get_conn (h : PostHogHook) (w : World) :
    World × ClientState :=
  let w := w.logLine ⟨LogLevel.info, "Setting write key for PostHog connection", []⟩
  let w := { w with client := { w.client with debug := h.posthog_debug_mode } }
  let w := if h.posthog_debug_mode then
      w.logLine ⟨LogLevel.info, "Setting PostHog connection to debug mode", []⟩
    else w
  let w := { w with client :=
      { w.client with on_error := some (ErrorCallback.hookOnError h) } }
  let w := { w with client :=
      { w.client with project_api_key := some h.project_api_key } }
  (w, w.client)

/-- `PostHogHook.on_error(error, items)`: logs
`'Encountered PostHog error: %s with items: %s'` with both arguments, then
raises an `AirflowException` whose message is `"PostHog error: "` followed by
the error string.  The body reads nothing from the receiver hook besides its
logger, so the result does not depend on the hook's fields. -/
def PostHogHook.on_error (_h : PostHogHook) (error items : String) (w : World) :
    World × Except PyError Unit :=
  let w := w.logLine ⟨LogLevel.error,
    "Encountered PostHog error: %s with items: %s",
    [LogArg.str error, LogArg.str items]⟩
  (w, Except.error (PyError.airflow ("PostHog error: " ++ error)))

/-- Every attribute name resolvable on a constructed `PostHogHook` instance:
the instance attributes set by `__init__`, the class attributes and methods of
`PostHogHook` itself, and — modelled from the spec — what the framework base
class contributes (spec §6 lists only the connection-store lookup, plus the
structured logger used throughout; the spec gives the hook no other
operation, and in particular no `capture`). -/
def PostHogHook.attrNames : List String :=
  ["posthog_conn_id", "posthog_debug_mode", "_args", "_kwargs",
   "connection", "extras", "project_api_key",
   "conn_name_attr", "default_conn_name", "conn_type", "hook_name",
   "get_conn", "on_error",
   "get_connection", "log"]

/-- Python attribute lookup on a `PostHogHook` instance: succeeds for the
names in `PostHogHook.attrNames` and raises `AttributeError` for every other
name. -/
def PostHogHook.lookupAttr (name : String) : Except PyError String :=
  if name ∈ PostHogHook.attrNames then Except.ok name
  else Except.error (PyError.attributeError
    ("PostHogHook object has no attribute " ++ name))

/-- The operator object after `PostHogTrackEventOperator.__init__`. -/
structure PostHogTrackEventOperator where
  user_id : String
  event : String
  properties : List (String × Jval)
  posthog_conn_id : String
  posthog_debug_mode : Bool
deriving DecidableEq

/-- `PostHogTrackEventOperator.__init__(*, user_id, event, properties=None,
posthog_conn_id='posthog_default', posthog_debug_mode=False)`: stores the
arguments, after `properties = properties or {}` — Python `or` replaces a
falsy value (`None` or an empty dict) by the empty dict. -/
def PostHogTrackEventOperator.construct (user_id event : String)
    (properties : Option (List (String × Jval)))
    (posthog_conn_id : String) (posthog_debug_mode : Bool) :
    PostHogTrackEventOperator :=
  let properties :=
    match properties with
    | none => []
    | some d => if d.isEmpty then [] else d
  { user_id, event, properties, posthog_conn_id, posthog_debug_mode }

/-- Python default for the operator's `posthog_conn_id`. -/
def operator_default_conn_id : String := "posthog_default"

/-- `PostHogTrackEventOperator.execute(context)`:
constructs `PostHogHook(posthog_conn_id=..., posthog_debug_mode=...)` —
any exception from the constructor propagates —, logs
`'Sending track event (%s) for user id: %s with properties: %s'`, then runs
`hook.capture(user_id=self.user_id, event=self.event,
properties=self.properties)`.  Python evaluates the attribute expression
`hook.capture` before any call: the lookup (`PostHogHook.lookupAttr`) fails,
because neither `PostHogHook` nor its base defines a `capture` attribute, so
the line raises `AttributeError`; `get_conn` is never called and the vendor
client's `capture` is never reached.  The `Except.ok` branch below is dead
(`lookupAttr "capture"` is an error); it records that even a resolved hook
attribute would not be the vendor `capture` operation — none accepts these
keyword arguments, so Python would raise `TypeError` there. -/
def PostHogTrackEventOperator.execute (op : PostHogTrackEventOperator)
    (store : ConnStore) (w : World) : World × Except PyError Unit :=
  match PostHogHook.construct store op.posthog_conn_id op.posthog_debug_mode w with
  | (Except.error e, w) => (w, Except.error e)
  | (Except.ok hook, w) =>
    let w := w.logLine ⟨LogLevel.info,
      "Sending track event (%s) for user id: %s with properties: %s",
      [LogArg.str op.event, LogArg.str op.user_id, LogArg.dict op.properties]⟩
    match PostHogHook.lookupAttr "capture" with
    | Except.error e => (w, Except.error e)
    | Except.ok a =>
      let _ := hook
      (w, Except.error (PyError.typeError
        ("attribute " ++ a ++ " does not accept capture keyword arguments")))

/-- `pat` occurs as a contiguous substring of `s`. -/
def containsSubstr (s pat : String) : Prop :=
  ∃ pre post : List Char, s.data = pre ++ pat.data ++ post

/-- A process at import time: `posthog.debug` defaults to false and the
`on_error` and `project_api_key` slots are unset; no captures, empty log. -/
def w0 : World :=
  { client := { debug := false, on_error := none, project_api_key := none },
    captures := [], log := [] }

/-- A connection store holding exactly one record, under the default
connection id, with the given extras payload. -/
def storeWithExtras (extras : List (String × Jval)) : ConnStore :=
  fun conn_id =>
    if conn_id = "posthog_default" then some { extra_dejson := extras } else none

end PosthogProvider

namespace PosthogProvider

/-- C2: a connection record whose extras lack the key `project_api_key` makes
hook construction raise `AirflowException('No PostHog write key provided')`,
returning the world unchanged: the shared client configuration is not
mutated and no capture call is recorded, so no client operation is
attempted. -/
theorem c2_missing_key_fails_without_client_mutation
    (store : ConnStore) (conn_id : String) (debug : Bool) (w : World)
    (conn : Connection) (hconn : store conn_id = some conn)
    (hmiss : conn.extra_dejson.lookup "project_api_key" = none) :
    PostHogHook.construct store conn_id debug w =
      (Except.error (PyError.airflow "No PostHog write key provided"), w) := by
  simp [PostHogHook.construct, get_connection, hconn, pyGet, hmiss]

/-- Witness for C2 at a concrete store whose record has no
`project_api_key` key. -/
theorem c2_missing_key_fails_without_client_mutation_witness :
    PostHogHook.construct (storeWithExtras [("write_key", Jval.str "abc")])
        "posthog_default" false w0 =
      (Except.error (PyError.airflow "No PostHog write key provided"), w0) :=
  c2_missing_key_fails_without_client_mutation
    (storeWithExtras [("write_key", Jval.str "abc")]) "posthog_default" false w0
    { extra_dejson := [("write_key", Jval.str "abc")] } rfl rfl

/-- C9: construction raises the missing-key error exactly when
`extras.get('project_api_key')` yields `None` (key absent or value JSON
null); any other value — the empty string, `false`, `0` included — is
accepted and stored as the hook's `project_api_key`. -/
theorem c9_missing_key_iff_get_none
    (store : ConnStore) (conn_id : String) (debug : Bool) (w : World)
    (conn : Connection) (hconn : store conn_id = some conn) :
    ((PostHogHook.construct store conn_id debug w).1 =
        Except.error (PyError.airflow "No PostHog write key provided")
      ↔ pyGet conn.extra_dejson "project_api_key" = none)
    ∧ ∀ v, pyGet conn.extra_dejson "project_api_key" = some v →
        (PostHogHook.construct store conn_id debug w).1 =
          Except.ok { posthog_conn_id := conn_id, posthog_debug_mode := debug,
                      connection := conn, extras := conn.extra_dejson,
                      project_api_key := v } := by
  cases hv : pyGet conn.extra_dejson "project_api_key" with
  | none => simp [PostHogHook.construct, get_connection, hconn, hv]
  | some v => simp [PostHogHook.construct, get_connection, hconn, hv]

/-- Witness for C9: an empty-string key is accepted and stored. -/
theorem c9_missing_key_iff_get_none_witness :
    (PostHogHook.construct (storeWithExtras [("project_api_key", Jval.str "")])
        "posthog_default" true w0).1 =
      Except.ok { posthog_conn_id := "posthog_default",
                  posthog_debug_mode := true,
                  connection := { extra_dejson := [("project_api_key", Jval.str "")] },
                  extras := [("project_api_key", Jval.str "")],
                  project_api_key := Jval.str "" } :=
  (c9_missing_key_iff_get_none
      (storeWithExtras [("project_api_key", Jval.str "")]) "posthog_default"
      true w0 { extra_dejson := [("project_api_key", Jval.str "")] } rfl).2
    (Jval.str "") rfl

/-- Fixture for C3: a valid record with key `"abc"`, hook requested in debug
mode. -/
def c3Store : ConnStore := storeWithExtras [("project_api_key", Jval.str "abc")]

/-- The hook the C3 fixture constructs. -/
def c3Hook : PostHogHook :=
  { posthog_conn_id := "posthog_default", posthog_debug_mode := true,
    connection := { extra_dejson := [("project_api_key", Jval.str "abc")] },
    extras := [("project_api_key", Jval.str "abc")],
    project_api_key := Jval.str "abc" }

/-- C3 fails as stated: from the pristine world, constructing a hook from a
valid record with key `"abc"` and debug mode on succeeds, yet afterwards the
shared client's `project_api_key` is still unset (not `"abc"`) and its
`debug` flag is still false — `__init__` never writes the client; only
`get_conn` does. -/
theorem c3_construction_alone_configures_client_counterexample :
    (PostHogHook.construct c3Store "posthog_default" true w0).1 =
        Except.ok c3Hook
    ∧ (PostHogHook.construct c3Store "posthog_default" true w0).2.client.project_api_key
        ≠ some c3Hook.project_api_key
    ∧ (PostHogHook.construct c3Store "posthog_default" true w0).2.client.debug
        ≠ c3Hook.posthog_debug_mode := by
  refine ⟨rfl, ?_, ?_⟩ <;> decide

/-- C3 amended: for every valid connection record, constructing a hook and
then calling its `get_conn` leaves the shared client's `project_api_key` and
`debug` fields equal to the hook's configured API key and debug-mode flag. -/
theorem c3_construct_then_get_conn_configures_client
    (store : ConnStore) (conn_id : String) (debug : Bool) (w w' : World)
    (h : PostHogHook)
    (hc : PostHogHook.construct store conn_id debug w = (Except.ok h, w'))
    (w2 : World) :
    (h.get_conn w2).1.client.project_api_key = some h.project_api_key
    ∧ (h.get_conn w2).1.client.debug = h.posthog_debug_mode := by
  cases hd : h.posthog_debug_mode <;>
    simp [PostHogHook.get_conn, World.logLine, hd]

/-- Witness for the amended C3 at the concrete fixture. -/
theorem c3_construct_then_get_conn_configures_client_witness :
    (c3Hook.get_conn w0).1.client.project_api_key = some c3Hook.project_api_key
    ∧ (c3Hook.get_conn w0).1.client.debug = c3Hook.posthog_debug_mode :=
  c3_construct_then_get_conn_configures_client c3Store "posthog_default" true
    w0 w0 c3Hook rfl w0

/-- Fixture for C4: a store carrying API key `"k1"`. -/
def c4StoreA : ConnStore := storeWithExtras [("project_api_key", Jval.str "k1")]

/-- Fixture for C4: a store carrying API key `"k2"`. -/
def c4StoreB : ConnStore := storeWithExtras [("project_api_key", Jval.str "k2")]

/-- The hook `c4StoreA` constructs. -/
def c4Hook1 : PostHogHook :=
  { posthog_conn_id := "posthog_default", posthog_debug_mode := false,
    connection := { extra_dejson := [("project_api_key", Jval.str "k1")] },
    extras := [("project_api_key", Jval.str "k1")],
    project_api_key := Jval.str "k1" }

/-- The hook `c4StoreB` constructs. -/
def c4Hook2 : PostHogHook :=
  { posthog_conn_id := "posthog_default", posthog_debug_mode := false,
    connection := { extra_dejson := [("project_api_key", Jval.str "k2")] },
    extras := [("project_api_key", Jval.str "k2")],
    project_api_key := Jval.str "k2" }

/-- C4 fails as stated: constructing two hooks sequentially (keys `"k1"` then
`"k2"`) from the pristine world succeeds for both, yet afterwards the shared
client is not configured with the second key — it is not configured at all,
because construction never writes the client. -/
theorem c4_sequential_construction_counterexample :
    (PostHogHook.construct c4StoreA "posthog_default" false w0).1 =
        Except.ok c4Hook1
    ∧ (PostHogHook.construct c4StoreB "posthog_default" false
        (PostHogHook.construct c4StoreA "posthog_default" false w0).2).1 =
        Except.ok c4Hook2
    ∧ (PostHogHook.construct c4StoreB "posthog_default" false
        (PostHogHook.construct c4StoreA "posthog_default" false w0).2).2.client.project_api_key
        ≠ some (Jval.str "k2") := by
  refine ⟨rfl, rfl, ?_⟩
  decide

/-- C4 amended: constructing two hooks sequentially with connections carrying
different API keys and obtaining the client from each (`get_conn`, in the
same order) leaves the shared client configured with the second hook's key
only — the second write overwrites the first, with no merging. -/
theorem c4_get_conn_last_write_wins
    (storeA storeB : ConnStore) (idA idB : String) (dA dB : Bool)
    (w wA wB : World) (h1 h2 : PostHogHook)
    (hc1 : PostHogHook.construct storeA idA dA w = (Except.ok h1, wA))
    (hc2 : PostHogHook.construct storeB idB dB wA = (Except.ok h2, wB))
    (hne : h1.project_api_key ≠ h2.project_api_key) :
    ((h2.get_conn (h1.get_conn wB).1).1.client.project_api_key
        = some h2.project_api_key)
    ∧ ((h2.get_conn (h1.get_conn wB).1).1.client.project_api_key
        ≠ some h1.project_api_key)
    ∧ ((h2.get_conn (h1.get_conn wB).1).1.client.debug
        = h2.posthog_debug_mode) := by
  refine ⟨?_, ?_, ?_⟩ <;>
    cases hd : h2.posthog_debug_mode <;>
    simp [PostHogHook.get_conn, World.logLine, hd] <;>
    exact fun hcontra => hne hcontra.symm

/-- Witness for the amended C4 at two concrete hooks with keys `"k1"` and
`"k2"`. -/
theorem c4_get_conn_last_write_wins_witness :
    ((c4Hook2.get_conn (c4Hook1.get_conn w0).1).1.client.project_api_key
        = some c4Hook2.project_api_key)
    ∧ ((c4Hook2.get_conn (c4Hook1.get_conn w0).1).1.client.project_api_key
        ≠ some c4Hook1.project_api_key)
    ∧ ((c4Hook2.get_conn (c4Hook1.get_conn w0).1).1.client.debug
        = c4Hook2.posthog_debug_mode) :=
  c4_get_conn_last_write_wins c4StoreA c4StoreB "posthog_default"
    "posthog_default" false false w0 w0 w0 c4Hook1 c4Hook2 rfl rfl (by decide)

/-- C5: for a hook with `posthog_debug_mode = true`, invoking its error
callback with `("rate limited", "evt-123")` appends a log line carrying both
the error and the offending item, and raises an `AirflowException` whose
message contains the substring `"rate limited"`. -/
theorem c5_debug_on_error_logs_and_raises
    (h : PostHogHook) (hd : h.posthog_debug_mode = true) (w : World) :
    ∃ msg,
      h.on_error "rate limited" "evt-123" w =
        (w.logLine ⟨LogLevel.error,
            "Encountered PostHog error: %s with items: %s",
            [LogArg.str "rate limited", LogArg.str "evt-123"]⟩,
          Except.error (PyError.airflow msg))
      ∧ containsSubstr msg "rate limited" := by
  refine ⟨"PostHog error: " ++ "rate limited", rfl, "PostHog error: ".data, [], ?_⟩
  simp [String.data_append]

/-- Witness for C5 at a concrete debug-mode hook. -/
theorem c5_debug_on_error_logs_and_raises_witness :
    ∃ msg,
      c3Hook.on_error "rate limited" "evt-123" w0 =
        (w0.logLine ⟨LogLevel.error,
            "Encountered PostHog error: %s with items: %s",
            [LogArg.str "rate limited", LogArg.str "evt-123"]⟩,
          Except.error (PyError.airflow msg))
      ∧ containsSubstr msg "rate limited" :=
  c5_debug_on_error_logs_and_raises c3Hook rfl w0

/-- C8: for every successfully constructed hook, `get_conn` returns the
shared client handle (the returned value is the world's client configuration
after the call), and after the call the client's `debug` flag, `on_error`
callback and `project_api_key` are the hook's debug-mode flag, the hook's
`on_error` method, and the hook's resolved API key. -/
theorem c8_get_conn_returns_configured_shared_client
    (store : ConnStore) (conn_id : String) (debug : Bool) (w w' : World)
    (h : PostHogHook)
    (hc : PostHogHook.construct store conn_id debug w = (Except.ok h, w'))
    (w2 : World) :
    (h.get_conn w2).2 = (h.get_conn w2).1.client
    ∧ (h.get_conn w2).1.client.debug = h.posthog_debug_mode
    ∧ (h.get_conn w2).1.client.on_error = some (ErrorCallback.hookOnError h)
    ∧ (h.get_conn w2).1.client.project_api_key = some h.project_api_key := by
  refine ⟨?_, ?_, ?_, ?_⟩ <;>
    cases hd : h.posthog_debug_mode <;>
    simp [PostHogHook.get_conn, World.logLine, hd]

/-- Witness for C8 at the concrete fixture hook. -/
theorem c8_get_conn_returns_configured_shared_client_witness :
    (c3Hook.get_conn w0).2 = (c3Hook.get_conn w0).1.client
    ∧ (c3Hook.get_conn w0).1.client.debug = c3Hook.posthog_debug_mode
    ∧ (c3Hook.get_conn w0).1.client.on_error
        = some (ErrorCallback.hookOnError c3Hook)
    ∧ (c3Hook.get_conn w0).1.client.project_api_key
        = some c3Hook.project_api_key :=
  c8_get_conn_returns_configured_shared_client c3Store "posthog_default" true
    w0 w0 c3Hook rfl w0

/-- C10: the error callback is independent of the debug flag — changing a
hook's `posthog_debug_mode` leaves `on_error`'s behaviour unchanged;
`get_conn` installs the hook's `on_error` unconditionally (debug mode on or
off); and every invocation of `on_error` logs and raises an
`AirflowException` whose message contains the error string. -/
theorem c10_on_error_independent_of_debug_mode
    (h : PostHogHook) (b : Bool) (e i : String) (w : World) :
    (PostHogHook.on_error { h with posthog_debug_mode := b } e i w
        = PostHogHook.on_error h e i w)
    ∧ (h.get_conn w).1.client.on_error = some (ErrorCallback.hookOnError h)
    ∧ h.on_error e i w =
        (w.logLine ⟨LogLevel.error,
            "Encountered PostHog error: %s with items: %s",
            [LogArg.str e, LogArg.str i]⟩,
          Except.error (PyError.airflow ("PostHog error: " ++ e)))
    ∧ containsSubstr ("PostHog error: " ++ e) e := by
  refine ⟨rfl, ?_, rfl, "PostHog error: ".data, [], ?_⟩
  · cases hd : h.posthog_debug_mode <;>
      simp [PostHogHook.get_conn, World.logLine, hd]
  · simp [String.data_append]

/-- Fixture for C1: a store resolving the default connection id to a record
whose extras are exactly the JSON object with `project_api_key = "abc"`. -/
def c1Store : ConnStore := storeWithExtras [("project_api_key", Jval.str "abc")]

/-- Fixture for C1: the operator of the spec's scenario, constructed with
`user_id="u1"`, `event="signup"`, `properties` the one-entry map
`plan ↦ "pro"`, the default connection id and debug mode off. -/
def c1Op : PostHogTrackEventOperator :=
  PostHogTrackEventOperator.construct "u1" "signup"
    (some [("plan", Jval.str "pro")]) "posthog_default" false

/-- C1 (evaluation at the spec's scenario): hook construction succeeds with
API key `"abc"`, yet `execute` raises `AttributeError` — the line
`hook.capture(...)` resolves the attribute `capture` on the hook, which does
not exist — so the vendor client's capture operation is invoked zero times,
not once, and the shared client configuration is never even written
(`get_conn` is never called from `execute`). -/
theorem c1_execute_raises_attribute_error_no_capture :
    (PostHogHook.construct c1Store "posthog_default" false w0).1 =
        Except.ok { posthog_conn_id := "posthog_default",
                    posthog_debug_mode := false,
                    connection := { extra_dejson := [("project_api_key", Jval.str "abc")] },
                    extras := [("project_api_key", Jval.str "abc")],
                    project_api_key := Jval.str "abc" }
    ∧ (c1Op.execute c1Store w0).2 =
        Except.error (PyError.attributeError
          "PostHogHook object has no attribute capture")
    ∧ (c1Op.execute c1Store w0).1.captures = []
    ∧ (c1Op.execute c1Store w0).1.client = w0.client := by
  exact ⟨rfl, rfl, rfl, rfl⟩

/-- Fixture for C6: the store backing the omitted-properties scenario. -/
def c6Store : ConnStore := storeWithExtras [("project_api_key", Jval.str "abc")]

/-- Fixture for C6: an operator constructed with `properties` omitted
(Python default `None`). -/
def c6Op : PostHogTrackEventOperator :=
  PostHogTrackEventOperator.construct "u1" "signup" none "posthog_default" false

/-- C6 (evaluation at the failing input): with `properties` omitted the
constructor does default the stored `properties` to the empty map
(`properties = properties or ` empty dict), but `execute` then raises
`AttributeError` on the `hook.capture(...)` line, so the vendor client's
capture operation is never invoked at all — with an empty map or otherwise. -/
theorem c6_omitted_properties_defaulted_but_capture_never_invoked :
    c6Op.properties = []
    ∧ (c6Op.execute c6Store w0).2 =
        Except.error (PyError.attributeError
          "PostHogHook object has no attribute capture")
    ∧ (c6Op.execute c6Store w0).1.captures = [] := by
  exact ⟨rfl, rfl, rfl⟩

/-- C7: `execute` performs no local recovery or transformation of errors:
whenever hook construction fails with an error, `execute` surfaces exactly
that error, unmodified, together with the unchanged world. -/
theorem c7_execute_propagates_errors_unmodified
    (op : PostHogTrackEventOperator) (store : ConnStore) (w w' : World)
    (e : PyError)
    (hfail : PostHogHook.construct store op.posthog_conn_id
        op.posthog_debug_mode w = (Except.error e, w')) :
    op.execute store w = (w', Except.error e) := by
  simp [PostHogTrackEventOperator.execute, hfail]

/-- Witness for C7: a store without the key makes `execute` surface the
hook's own `AirflowException` unmodified. -/
theorem c7_execute_propagates_errors_unmodified_witness :
    c6Op.execute (storeWithExtras []) w0 =
      (w0, Except.error (PyError.airflow "No PostHog write key provided")) :=
  c7_execute_propagates_errors_unmodified c6Op (storeWithExtras []) w0 w0
    (PyError.airflow "No PostHog write key provided") rfl

end PosthogProvider
